import Mathlib

/-!
Verification of the status-change detection and throttling engine of the
Status-page-app repository (src/main.py): the status normalizer
(`normalize_status`), the change detector (`detect_enhanced_status_changes`)
with its pending-confirmation buffer, and the notification gate
(`should_send_notification`) with per-service cooldown and hourly rate limit.

Modelling conventions:
- Python strings are Lean `String`s; `str.lower().strip()` is modelled over
  the character list (`pyLower`, `pyStrip`), matching Python on the ASCII
  vocabulary the program uses.
- Python dicts threaded through the engine (the pending-confirmation buffer,
  the cooldown table) are modelled as functions into `Option`.
- `datetime.utcnow()` instants are integer seconds, passed explicitly; the
  module-level configuration constants (`CHANGE_CONFIRMATION_CYCLES`,
  `NOTIFICATION_COOLDOWN`, `MAX_NOTIFICATIONS_PER_HOUR`) are parameters.
-/

/-- Python `str.lower()` restricted to ASCII case folding, as a map over the
character list. -/
def pyLower (s : String) : String :=
  String.mk (s.data.map Char.toLower)

/-- Python `str.strip()`: drop leading and trailing whitespace. -/
def pyStrip (s : String) : String :=
  String.mk (((s.data.dropWhile Char.isWhitespace).reverse.dropWhile Char.isWhitespace).reverse)

/-- Alias table row of `normalize_status` mapping to `"operational"` (src/main.py line 176). -/
def operationalAliases : List String :=
  ["operational", "available", "normal", "ok", "green", "up"]

/-- Alias table row of `normalize_status` mapping to `"degraded"` (src/main.py line 178). -/
def degradedAliases : List String :=
  ["degraded performance", "degraded_performance", "degraded", "partial_outage",
   "partial outage", "minor issue", "minor_issue"]

/-- Alias table row of `normalize_status` mapping to `"major_outage"` (src/main.py line 180). -/
def majorOutageAliases : List String :=
  ["major_outage", "major outage", "down", "red", "critical", "outage", "error"]

/-- Alias table row of `normalize_status` mapping to `"maintenance"` (src/main.py line 182). -/
def maintenanceAliases : List String :=
  ["maintenance", "scheduled maintenance", "under_maintenance"]

/-- Alias table row of `normalize_status` mapping to `"investigating"` (src/main.py line 184). -/
def investigatingAliases : List String :=
  ["investigating", "identified", "monitoring"]

/-- The branch chain of `normalize_status` on the lower-cased stripped input. -/
def normalize_core (status_lower : String) : String :=
  if status_lower ∈ operationalAliases then "operational"
  else if status_lower ∈ degradedAliases then "degraded"
  else if status_lower ∈ majorOutageAliases then "major_outage"
  else if status_lower ∈ maintenanceAliases then "maintenance"
  else if status_lower ∈ investigatingAliases then "investigating"
  else status_lower

/-- The function `normalize_status` (src/main.py lines 168-187): empty input is `"unknown"`,
otherwise branch on `status.lower().strip()`. -/
def normalize_status (status : String) : String :=
  if status = "" then "unknown"
  else normalize_core (pyStrip (pyLower status))

/-- The spec's five degraded aliases (spec §4.1), for comparison with the code's row. -/
def specDegradedAliases : List String :=
  ["degraded performance", "degraded", "partial_outage", "partial outage", "minor issue"]

/-- All alias strings recognized by `normalize_status`. -/
def allAliases : List String :=
  operationalAliases ++ degradedAliases ++ majorOutageAliases ++
    maintenanceAliases ++ investigatingAliases

/-- The fixed registry of monitored services (src/main.py lines 99-101). -/
def MONITORED_SERVICES : List String :=
  ["github", "datadog", "jira", "jsm", "prisma", "grafana", "okta", "cleverbridge", "azure", "aws"]

/-- The static per-service priority table (src/main.py lines 103-114). -/
def SERVICE_PRIORITIES : List (String × String) :=
  [("github", "high"), ("datadog", "critical"), ("jira", "medium"), ("jsm", "high"),
   ("prisma", "high"), ("grafana", "medium"), ("okta", "critical"),
   ("cleverbridge", "low"), ("azure", "critical"), ("aws", "critical")]

/-- The incident URL table built inside the detector (src/main.py lines 475-484). -/
def incident_urls : List (String × String) :=
  [("github", "https://www.githubstatus.com"), ("datadog", "https://status.datadoghq.com"),
   ("jira", "https://jira-software.status.atlassian.com"),
   ("jsm", "https://jira-service-management.status.atlassian.com"),
   ("prisma", "https://www.prisma-status.com"), ("grafana", "https://status.grafana.com"),
   ("okta", "https://status.okta.com"), ("cleverbridge", "https://status.cleverbridge.com")]

/-- The `EnhancedSlackNotification` pydantic model (src/main.py lines 153-166). -/
structure EnhancedSlackNotification where
  service : String
  previous_status : String
  current_status : String
  timestamp : String
  severity : String
  priority : String
  components_affected : List String
  duration : String
  impact_description : String
  recovery_eta : Option String
  incident_url : Option String
  region : Option String
  incident_id : Option String
deriving DecidableEq

/-- One entry of the `notification_history` list (src/main.py lines 256-260). -/
structure HistEntry where
  service : String
  timestamp : Int
  status_change : String
deriving DecidableEq

/-- The mutable state read and written by `should_send_notification`: the
`last_notification_times` cooldown table and the `notification_history` list. -/
structure GateState where
  last_notification_times : String → Option Int
  notification_history : List HistEntry

/-- The tail of `should_send_notification` after the cooldown check passes
(src/main.py lines 245-263): hourly rate limit, then commit history/cooldown. -/
def gate_commit (maxPerHour now : Int) (n : EnhancedSlackNotification)
    (st : GateState) : Bool × GateState :=
  if maxPerHour ≤ ((st.notification_history.filter
      (fun e => now - e.timestamp < 3600)).length : Int) then
    (false, st)
  else
    (true,
     { last_notification_times :=
         fun s => if s = n.service then some now else st.last_notification_times s,
       notification_history :=
         st.notification_history ++
           [⟨n.service, now, n.previous_status ++ " -> " ++ n.current_status⟩] })

/-- The gate `should_send_notification` (src/main.py lines 225-263): recovery override,
then per-service cooldown, then hourly rate limit, then commit. Returns the
decision together with the updated gate state. -/
def should_send_notification (cooldown maxPerHour now : Int)
    (n : EnhancedSlackNotification) (st : GateState) : Bool × GateState :=
  if normalize_status n.current_status = "operational" ∧
      normalize_status n.previous_status ≠ "operational" then
    (true,
     { st with last_notification_times :=
         fun s => if s = n.service then some now else st.last_notification_times s })
  else
    match st.last_notification_times n.service with
    | some last =>
      if now - last < cooldown then (false, st)
      else gate_commit maxPerHour now n st
    | none => gate_commit maxPerHour now n st

/-- One value of a dict-shaped component tree: a dict holding an optional
`"status"` field, a bare string, or something else (skipped by the scan). -/
inductive CompInfo where
  | dict (status : Option String)
  | str (s : String)
  | other
deriving DecidableEq

/-- One element of a list-shaped component tree: a dict with optional
`"name"` and `"status"` fields, or a non-dict element (skipped). -/
inductive ListComp where
  | dict (name : Option String) (status : Option String)
  | nonDict
deriving DecidableEq

/-- A per-service component tree, which in the source is either a dict or a
list (src/main.py lines 441-456). -/
inductive Components where
  | dict (entries : List (String × CompInfo))
  | list (entries : List ListComp)
  | other
deriving DecidableEq

/-- A status snapshot as consumed by the detector: the `"details"` and
`"components"` mappings, modelled as partial maps keyed by service id. -/
structure Snapshot where
  details : String → Option String
  components : String → Option Components

/-- The component scan of the detector (src/main.py lines 434-458): collect
names of components whose own normalized status is not operational. -/
def affectedComponents (cur : Snapshot) (service : String) : List String :=
  match cur.components service with
  | none => []
  | some (Components.dict entries) =>
    entries.foldl
      (fun acc p =>
        match p.2 with
        | CompInfo.dict stat =>
          if normalize_status (stat.getD "") ≠ "operational" then acc ++ [p.1] else acc
        | CompInfo.str s =>
          if normalize_status s ≠ "operational" then acc ++ [p.1] else acc
        | CompInfo.other => acc) []
  | some (Components.list entries) =>
    entries.foldl
      (fun acc c =>
        match c with
        | ListComp.dict name stat =>
          if normalize_status (stat.getD "") ≠ "operational"
          then acc ++ [name.getD "Unknown Component"] else acc
        | ListComp.nonDict => acc) []
  | some Components.other => []

/-- One entry of the `status_change_buffer` pending-confirmation dict
(src/main.py lines 410-417). -/
structure BufferEntry where
  count : Nat
  first_seen : Int
  previous_status : String
  current_status : String
  normalized_current : String
  normalized_previous : String
deriving DecidableEq

/-- The pending-confirmation buffer, keyed by `service ++ "_" ++ normalized`. -/
def Buffer : Type := String → Option BufferEntry

/-- Dict write `buffer[key] = e`. -/
def bufSet (b : Buffer) (key : String) (e : BufferEntry) : Buffer :=
  fun k => if k = key then some e else b k

/-- Dict removal `buffer.pop(key)`. -/
def bufPop (b : Buffer) (key : String) : Buffer :=
  fun k => if k = key then none else b k

/-- Construction of the emitted notification (src/main.py lines 461-498):
severity from the normalized current status, priority from the static table,
components capped at 5, incident URL from the fixed table. -/
def buildNotification (cur : Snapshot) (service prev_raw cur_raw curN : String)
    (now : Int) (tstr : String) : EnhancedSlackNotification :=
  { service := service
    previous_status := prev_raw
    current_status := cur_raw
    timestamp := tstr
    severity :=
      if curN = "operational" then "resolved"
      else if curN = "major_outage" then "critical"
      else if curN ∈ (["degraded", "investigating"] : List String) then "warning"
      else if curN = "maintenance" then "info"
      else "warning"
    priority := (List.lookup service SERVICE_PRIORITIES).getD "medium"
    components_affected := (affectedComponents cur service).take 5
    duration := if curN ≠ "operational" then "ongoing" else "resolved"
    impact_description := ""
    recovery_eta := none
    incident_url := List.lookup service incident_urls
    region := none
    incident_id := some (service ++ "-" ++ toString now) }

/-- The body of the per-service loop of `detect_enhanced_status_changes`
(src/main.py lines 376-431 and 486-500): skip rules, the immediate path for
critical changes, and the pending-confirmation buffer path. Returns the
notification emitted for this service (if any) and the updated buffer. -/
def detectStep (threshold : Int) (cur prev : Snapshot) (now : Int) (tstr : String)
    (service : String) (buffer : Buffer) :
    Option EnhancedSlackNotification × Buffer :=
  match cur.details service with
  | none => (none, buffer)
  | some cur_raw =>
    let prev_raw := (prev.details service).getD "unknown"
    let curN := normalize_status cur_raw
    let prevN := normalize_status prev_raw
    if curN = prevN ∧ prevN ≠ "unknown" then (none, buffer)
    else if prevN = "unknown" ∧ curN = "operational" then (none, buffer)
    else
      let key := service ++ "_" ++ curN
      if curN ∈ (["major_outage", "degraded"] : List String) ∨
          (curN = "operational" ∧ prevN ∈ (["major_outage", "degraded"] : List String)) then
        (some (buildNotification cur service prev_raw cur_raw curN now tstr), buffer)
      else
        match buffer key with
        | none =>
          let b1 := bufSet buffer key ⟨1, now, prev_raw, cur_raw, curN, prevN⟩
          if 1 < threshold then (none, b1)
          else if (1 : Int) < threshold then (none, b1)
          else (some (buildNotification cur service prev_raw cur_raw curN now tstr),
                bufPop b1 key)
        | some e =>
          let b1 := bufSet buffer key { e with count := e.count + 1 }
          if ((e.count : Int) + 1 : Int) < threshold then (none, b1)
          else (some (buildNotification cur service prev_raw cur_raw curN now tstr),
                bufPop b1 key)

/-- The detector's loop over a list of services, threading the buffer and
accumulating notifications in service order. -/
def detectGo (threshold : Int) (cur prev : Snapshot) (now : Int) (tstr : String) :
    List String → Buffer → List EnhancedSlackNotification × Buffer
  | [], b => ([], b)
  | s :: rest, b =>
    ((detectStep threshold cur prev now tstr s b).1.toList ++
       (detectGo threshold cur prev now tstr rest
         (detectStep threshold cur prev now tstr s b).2).1,
     (detectGo threshold cur prev now tstr rest
       (detectStep threshold cur prev now tstr s b).2).2)

/-- The detector `detect_enhanced_status_changes` (src/main.py lines 367-505): iterate the
per-service detection over the fixed registry. `threshold` is the
`CHANGE_CONFIRMATION_CYCLES` configuration value, `now` and `tstr` stand for
the `datetime.utcnow()` instant and its formatted string. -/
def detect_enhanced_status_changes (threshold : Int) (cur prev : Snapshot)
    (buffer : Buffer) (now : Int) (tstr : String) :
    List EnhancedSlackNotification × Buffer :=
  detectGo threshold cur prev now tstr MONITORED_SERVICES buffer

/-- Empty gate state: no cooldown timestamps, empty history. -/
def emptyGateState : GateState := ⟨fun _ => none, []⟩

/-- A concrete recovery notification: major outage back to operational. -/
def recoveryNotif : EnhancedSlackNotification :=
  { service := "github", previous_status := "major_outage", current_status := "operational",
    timestamp := "t", severity := "resolved", priority := "high", components_affected := [],
    duration := "resolved", impact_description := "", recovery_eta := none,
    incident_url := none, region := none, incident_id := none }

/-- A concrete non-recovery notification: operational to investigating. -/
def investigatingNotif : EnhancedSlackNotification :=
  { service := "github", previous_status := "operational", current_status := "investigating",
    timestamp := "t", severity := "warning", priority := "high", components_affected := [],
    duration := "ongoing", impact_description := "", recovery_eta := none,
    incident_url := none, region := none, incident_id := none }

/-- Gate state after the first call of the C5 rate-limit scenario. -/
def c5state1 : GateState :=
  (should_send_notification 300 2 0 investigatingNotif emptyGateState).2

/-- Gate state after the second call of the C5 rate-limit scenario. -/
def c5state2 : GateState :=
  (should_send_notification 300 2 400 investigatingNotif c5state1).2

/-- If the hourly cap of `gate_commit` is reached, it denies. -/
theorem gate_commit_cap_denies (maxPerHour now : Int) (n : EnhancedSlackNotification)
    (st : GateState)
    (hcap : maxPerHour ≤ ((st.notification_history.filter
      (fun e => now - e.timestamp < 3600)).length : Int)) :
    gate_commit maxPerHour now n st = (false, st) := by
  simp [gate_commit, hcap]

/-- If `gate_commit` denies, it leaves the state untouched. -/
theorem gate_commit_false_frame (maxPerHour now : Int) (n : EnhancedSlackNotification)
    (st : GateState) (h : (gate_commit maxPerHour now n st).1 = false) :
    (gate_commit maxPerHour now n st).2 = st := by
  by_cases hc : maxPerHour ≤ ((st.notification_history.filter
      (fun e => now - e.timestamp < 3600)).length : Int)
  · simp [gate_commit, hc]
  · simp [gate_commit, hc] at h

/-- C3: a recovery transition (current normalizes to operational, previous does
not) is always allowed by `should_send_notification`, for every cooldown table,
history, rate-limit configuration and clock, and the call stamps the service's
cooldown entry with the current time. -/
theorem c3_recovery_always_allowed (cooldown maxPerHour now : Int)
    (n : EnhancedSlackNotification) (st : GateState)
    (hcur : normalize_status n.current_status = "operational")
    (hprev : normalize_status n.previous_status ≠ "operational") :
    (should_send_notification cooldown maxPerHour now n st).1 = true ∧
    (should_send_notification cooldown maxPerHour now n st).2.last_notification_times
      n.service = some now := by
  simp [should_send_notification, hcur, hprev]

/-- C3 witness: the recovery override fires on a concrete outage-to-operational
notification against the empty gate state. -/
theorem c3_recovery_always_allowed_witness :
    normalize_status recoveryNotif.current_status = "operational" ∧
    normalize_status recoveryNotif.previous_status ≠ "operational" ∧
    ((should_send_notification 300 20 5 recoveryNotif emptyGateState).1 = true ∧
     (should_send_notification 300 20 5 recoveryNotif emptyGateState).2.last_notification_times
       recoveryNotif.service = some 5) :=
  ⟨by decide, by decide,
   c3_recovery_always_allowed 300 20 5 recoveryNotif emptyGateState (by decide) (by decide)⟩

/-- C5: whenever the trailing-hour history count has reached the hourly cap,
every non-recovery transition is denied; and in the concrete scenario with
`max_per_hour = 2`, three eligible non-recovery transitions of the same service
within one hour, the first two are allowed and the third is denied. -/
theorem c5_hourly_cap_denies (cooldown maxPerHour now : Int)
    (n : EnhancedSlackNotification) (st : GateState)
    (hrec : ¬(normalize_status n.current_status = "operational" ∧
      normalize_status n.previous_status ≠ "operational"))
    (hcap : maxPerHour ≤ ((st.notification_history.filter
      (fun e => now - e.timestamp < 3600)).length : Int)) :
    (should_send_notification cooldown maxPerHour now n st).1 = false ∧
    ((should_send_notification 300 2 0 investigatingNotif emptyGateState).1 = true ∧
     (should_send_notification 300 2 400 investigatingNotif c5state1).1 = true ∧
     (should_send_notification 300 2 800 investigatingNotif c5state2).1 = false) := by
  refine ⟨?_, by decide, by decide, by decide⟩
  unfold should_send_notification
  rw [if_neg hrec]
  cases hm : st.last_notification_times n.service with
  | none =>
    dsimp only
    rw [gate_commit_cap_denies _ _ _ _ hcap]
  | some last =>
    dsimp only
    by_cases hcd : now - last < cooldown
    · rw [if_pos hcd]
    · rw [if_neg hcd, gate_commit_cap_denies _ _ _ _ hcap]

/-- C5 witness: with the cap at 0, a concrete non-recovery notification is
denied against the empty state. -/
theorem c5_hourly_cap_denies_witness :
    ¬(normalize_status investigatingNotif.current_status = "operational" ∧
      normalize_status investigatingNotif.previous_status ≠ "operational") ∧
    ((0 : Int) ≤ ((emptyGateState.notification_history.filter
      (fun e => (0 : Int) - e.timestamp < 3600)).length : Int)) ∧
    ((should_send_notification 300 0 0 investigatingNotif emptyGateState).1 = false ∧
     ((should_send_notification 300 2 0 investigatingNotif emptyGateState).1 = true ∧
      (should_send_notification 300 2 400 investigatingNotif c5state1).1 = true ∧
      (should_send_notification 300 2 800 investigatingNotif c5state2).1 = false)) :=
  ⟨by decide, by decide,
   c5_hourly_cap_denies 300 0 0 investigatingNotif emptyGateState (by decide) (by decide)⟩

/-- C6: `should_send_notification` is state-preserving on denial — whenever it
returns false, the cooldown table and history are exactly the input ones. -/
theorem c6_deny_preserves_state (cooldown maxPerHour now : Int)
    (n : EnhancedSlackNotification) (st : GateState)
    (h : (should_send_notification cooldown maxPerHour now n st).1 = false) :
    (should_send_notification cooldown maxPerHour now n st).2 = st := by
  by_cases hrec : normalize_status n.current_status = "operational" ∧
      normalize_status n.previous_status ≠ "operational"
  · simp [should_send_notification, hrec] at h
  · unfold should_send_notification at h ⊢
    rw [if_neg hrec] at h ⊢
    cases hm : st.last_notification_times n.service with
    | none =>
      rw [hm] at h
      dsimp only at h ⊢
      exact gate_commit_false_frame _ _ _ _ h
    | some last =>
      rw [hm] at h
      dsimp only at h ⊢
      by_cases hcd : now - last < cooldown
      · rw [if_pos hcd]
      · rw [if_neg hcd] at h ⊢
        exact gate_commit_false_frame _ _ _ _ h

/-- C6 witness: a concrete denied call (cap 0) leaves the state untouched. -/
theorem c6_deny_preserves_state_witness :
    (should_send_notification 300 0 0 investigatingNotif emptyGateState).1 = false ∧
    (should_send_notification 300 0 0 investigatingNotif emptyGateState).2 = emptyGateState :=
  ⟨by decide, c6_deny_preserves_state 300 0 0 investigatingNotif emptyGateState (by decide)⟩

/-- C10: on an approved recovery, the gate stamps the service's cooldown entry
but appends nothing to the history, so the trailing-hour count used for the
hourly cap is unchanged for every later clock value. -/
theorem c10_recovery_no_history (cooldown maxPerHour now : Int)
    (n : EnhancedSlackNotification) (st : GateState)
    (hcur : normalize_status n.current_status = "operational")
    (hprev : normalize_status n.previous_status ≠ "operational") :
    (should_send_notification cooldown maxPerHour now n st).1 = true ∧
    (should_send_notification cooldown maxPerHour now n st).2.notification_history =
      st.notification_history ∧
    (should_send_notification cooldown maxPerHour now n st).2.last_notification_times
      n.service = some now ∧
    ∀ t : Int,
      (((should_send_notification cooldown maxPerHour now n st).2.notification_history.filter
        (fun e => t - e.timestamp < 3600)).length : Int) =
      ((st.notification_history.filter (fun e => t - e.timestamp < 3600)).length : Int) := by
  simp [should_send_notification, hcur, hprev]

/-- C10 witness: concrete approved recovery against a one-entry history. -/
theorem c10_recovery_no_history_witness :
    normalize_status recoveryNotif.current_status = "operational" ∧
    normalize_status recoveryNotif.previous_status ≠ "operational" ∧
    ((should_send_notification 300 2 50 recoveryNotif
        ⟨fun _ => none, [⟨"github", 0, "x"⟩]⟩).1 = true ∧
     (should_send_notification 300 2 50 recoveryNotif
        ⟨fun _ => none, [⟨"github", 0, "x"⟩]⟩).2.notification_history = [⟨"github", 0, "x"⟩] ∧
     (should_send_notification 300 2 50 recoveryNotif
        ⟨fun _ => none, [⟨"github", 0, "x"⟩]⟩).2.last_notification_times
       recoveryNotif.service = some 50 ∧
     ∀ t : Int,
       (((should_send_notification 300 2 50 recoveryNotif
           ⟨fun _ => none, [⟨"github", 0, "x"⟩]⟩).2.notification_history.filter
         (fun e => t - e.timestamp < 3600)).length : Int) =
       ((([⟨"github", 0, "x"⟩] : List HistEntry).filter
         (fun e => t - e.timestamp < 3600)).length : Int)) :=
  ⟨by decide, by decide,
   c10_recovery_no_history 300 2 50 recoveryNotif
     ⟨fun _ => none, [⟨"github", 0, "x"⟩]⟩ (by decide) (by decide)⟩

/-- C7 counterexample: `"degraded_performance"` is not among the spec's five
degraded aliases and is already lower-cased and stripped, so by the claim it
would map to itself; the code maps it to `"degraded"`. -/
theorem c7_spec_alias_table_counterexample :
    normalize_status "degraded_performance" = "degraded" ∧
    pyStrip (pyLower "degraded_performance") = "degraded_performance" ∧
    "degraded_performance" ∉ specDegradedAliases := by decide

/-- C7 amended: on non-empty input, `normalize_status` maps exactly the code's
alias rows (case-insensitively, after stripping) to their canonical statuses —
for each of the five rows, the output is the row's canonical status iff the
lower-cased stripped input is in the row, the degraded row being the spec's
five entries plus `"degraded_performance"` and `"minor_issue"`; unrecognized
non-empty input passes through lower-cased and stripped; empty input maps to
`"unknown"`. -/
theorem c7_alias_rows_amended (s : String) (hne : s ≠ "") :
    (normalize_status s = "operational" ↔ pyStrip (pyLower s) ∈ operationalAliases) ∧
    (normalize_status s = "degraded" ↔ pyStrip (pyLower s) ∈ degradedAliases) ∧
    (normalize_status s = "major_outage" ↔ pyStrip (pyLower s) ∈ majorOutageAliases) ∧
    (normalize_status s = "maintenance" ↔ pyStrip (pyLower s) ∈ maintenanceAliases) ∧
    (normalize_status s = "investigating" ↔ pyStrip (pyLower s) ∈ investigatingAliases) ∧
    (pyStrip (pyLower s) ∉ allAliases → normalize_status s = pyStrip (pyLower s)) ∧
    normalize_status "" = "unknown" := by
  have hval : normalize_status s = normalize_core (pyStrip (pyLower s)) := by
    unfold normalize_status
    rw [if_neg hne]
  have d21 : ∀ x ∈ degradedAliases, x ∉ operationalAliases := by decide
  have d31 : ∀ x ∈ majorOutageAliases, x ∉ operationalAliases := by decide
  have d32 : ∀ x ∈ majorOutageAliases, x ∉ degradedAliases := by decide
  have d41 : ∀ x ∈ maintenanceAliases, x ∉ operationalAliases := by decide
  have d42 : ∀ x ∈ maintenanceAliases, x ∉ degradedAliases := by decide
  have d43 : ∀ x ∈ maintenanceAliases, x ∉ majorOutageAliases := by decide
  have d51 : ∀ x ∈ investigatingAliases, x ∉ operationalAliases := by decide
  have d52 : ∀ x ∈ investigatingAliases, x ∉ degradedAliases := by decide
  have d53 : ∀ x ∈ investigatingAliases, x ∉ majorOutageAliases := by decide
  have d54 : ∀ x ∈ investigatingAliases, x ∉ maintenanceAliases := by decide
  refine ⟨?_, ?_, ?_, ?_, ?_, ?_, by decide⟩
  · rw [hval]
    constructor
    · intro h
      unfold normalize_core at h
      split_ifs at h with h1 h2 h3 h4 h5
      · exact h1
      · exact absurd h (by decide)
      · exact absurd h (by decide)
      · exact absurd h (by decide)
      · exact absurd h (by decide)
      · rw [h]; decide
    · intro hmem
      unfold normalize_core
      rw [if_pos hmem]
  · rw [hval]
    constructor
    · intro h
      unfold normalize_core at h
      split_ifs at h with h1 h2 h3 h4 h5
      · exact absurd h (by decide)
      · exact h2
      · exact absurd h (by decide)
      · exact absurd h (by decide)
      · exact absurd h (by decide)
      · rw [h]; decide
    · intro hmem
      unfold normalize_core
      rw [if_neg (d21 _ hmem), if_pos hmem]
  · rw [hval]
    constructor
    · intro h
      unfold normalize_core at h
      split_ifs at h with h1 h2 h3 h4 h5
      · exact absurd h (by decide)
      · exact absurd h (by decide)
      · exact h3
      · exact absurd h (by decide)
      · exact absurd h (by decide)
      · rw [h]; decide
    · intro hmem
      unfold normalize_core
      rw [if_neg (d31 _ hmem), if_neg (d32 _ hmem), if_pos hmem]
  · rw [hval]
    constructor
    · intro h
      unfold normalize_core at h
      split_ifs at h with h1 h2 h3 h4 h5
      · exact absurd h (by decide)
      · exact absurd h (by decide)
      · exact absurd h (by decide)
      · exact h4
      · exact absurd h (by decide)
      · rw [h]; decide
    · intro hmem
      unfold normalize_core
      rw [if_neg (d41 _ hmem), if_neg (d42 _ hmem), if_neg (d43 _ hmem), if_pos hmem]
  · rw [hval]
    constructor
    · intro h
      unfold normalize_core at h
      split_ifs at h with h1 h2 h3 h4 h5
      · exact absurd h (by decide)
      · exact absurd h (by decide)
      · exact absurd h (by decide)
      · exact absurd h (by decide)
      · exact h5
      · rw [h]; decide
    · intro hmem
      unfold normalize_core
      rw [if_neg (d51 _ hmem), if_neg (d52 _ hmem), if_neg (d53 _ hmem),
        if_neg (d54 _ hmem), if_pos hmem]
  · intro hnot
    rw [hval]
    simp only [allAliases, List.mem_append, not_or] at hnot
    obtain ⟨⟨⟨⟨h1, h2⟩, h3⟩, h4⟩, h5⟩ := hnot
    unfold normalize_core
    rw [if_neg h1, if_neg h2, if_neg h3, if_neg h4, if_neg h5]

/-- C7 witness: the amended full-table characterization evaluated at
`"degraded_performance"`. -/
theorem c7_alias_rows_amended_witness :
    ("degraded_performance" : String) ≠ "" ∧
    ((normalize_status "degraded_performance" = "operational" ↔
        pyStrip (pyLower "degraded_performance") ∈ operationalAliases) ∧
     (normalize_status "degraded_performance" = "degraded" ↔
        pyStrip (pyLower "degraded_performance") ∈ degradedAliases) ∧
     (normalize_status "degraded_performance" = "major_outage" ↔
        pyStrip (pyLower "degraded_performance") ∈ majorOutageAliases) ∧
     (normalize_status "degraded_performance" = "maintenance" ↔
        pyStrip (pyLower "degraded_performance") ∈ maintenanceAliases) ∧
     (normalize_status "degraded_performance" = "investigating" ↔
        pyStrip (pyLower "degraded_performance") ∈ investigatingAliases) ∧
     (pyStrip (pyLower "degraded_performance") ∉ allAliases →
        normalize_status "degraded_performance" = pyStrip (pyLower "degraded_performance")) ∧
     normalize_status "" = "unknown") :=
  ⟨by decide, c7_alias_rows_amended "degraded_performance" (by decide)⟩

/-- C8 counterexample: the empty string and a single space differ only in
surrounding whitespace (their lower-cased stripped forms agree), yet normalize
sends `""` to `"unknown"` and `" "` to `""`. -/
theorem c8_whitespace_counterexample :
    pyStrip (pyLower "") = pyStrip (pyLower " ") ∧
    normalize_status "" ≠ normalize_status " " := by decide

/-- C8 amended: `normalize_status` is deterministic, and it is case- and
surrounding-whitespace-insensitive on all inputs whose lower-cased stripped
form is non-empty; in particular `normalize_status "Operational "` equals
`normalize_status "OPERATIONAL"`. -/
theorem c8_case_whitespace_insensitive_amended (s t : String)
    (h : pyStrip (pyLower s) = pyStrip (pyLower t))
    (hne : pyStrip (pyLower s) ≠ "") :
    normalize_status s = normalize_status t ∧
    (∀ u v : String, u = v → normalize_status u = normalize_status v) ∧
    normalize_status "Operational " = normalize_status "OPERATIONAL" := by
  have hs : s ≠ "" := by
    intro hs0
    exact hne (by rw [hs0]; decide)
  have ht : t ≠ "" := by
    intro ht0
    apply hne
    rw [h, ht0]
    decide
  refine ⟨?_, fun u v huv => by rw [huv], by decide⟩
  unfold normalize_status
  rw [if_neg hs, if_neg ht, h]

/-- C8 witness: the amended insensitivity applied to the spec's own example
pair. -/
theorem c8_case_whitespace_insensitive_amended_witness :
    pyStrip (pyLower "Operational ") = pyStrip (pyLower "OPERATIONAL") ∧
    pyStrip (pyLower "Operational ") ≠ "" ∧
    (normalize_status "Operational " = normalize_status "OPERATIONAL" ∧
     (∀ u v : String, u = v → normalize_status u = normalize_status v) ∧
     normalize_status "Operational " = normalize_status "OPERATIONAL") :=
  ⟨by decide, by decide,
   c8_case_whitespace_insensitive_amended "Operational " "OPERATIONAL" (by decide) (by decide)⟩

/-- If two lists agree after appending the same marker character and tails, and
neither list contains the marker, the lists are equal. -/
theorem append_cons_eq_left {a b : List Char} {c : Char} {u v : List Char}
    (h : a ++ c :: u = b ++ c :: v) (ha : c ∉ a) (hb : c ∉ b) : a = b := by
  induction a generalizing b with
  | nil =>
    cases b with
    | nil => rfl
    | cons y ys =>
      simp only [List.nil_append, List.cons_append, List.cons.injEq] at h
      exact absurd (h.1 ▸ List.mem_cons_self y ys) hb
  | cons x xs ih =>
    cases b with
    | nil =>
      simp only [List.nil_append, List.cons_append, List.cons.injEq] at h
      exact absurd (h.1.symm ▸ List.mem_cons_self x xs) ha
    | cons y ys =>
      simp only [List.cons_append, List.cons.injEq] at h
      have hxs : c ∉ xs := fun hm => ha (List.mem_cons_of_mem x hm)
      have hys : c ∉ ys := fun hm => hb (List.mem_cons_of_mem y hm)
      rw [h.1, ih h.2 hxs hys]

/-- Buffer keys of distinct underscore-free service names never collide,
whatever the normalized-status suffixes are. -/
theorem buffer_key_ne (s sB : String) (hs : '_' ∉ s.data) (hsB : '_' ∉ sB.data)
    (hne : s ≠ sB) (x y : String) : s ++ "_" ++ x ≠ sB ++ "_" ++ y := by
  intro h
  apply hne
  apply String.ext
  have hd := congrArg String.data h
  simp only [String.data_append] at hd
  have hd2 : s.data ++ '_' :: x.data = sB.data ++ '_' :: y.data := by
    simpa [List.append_assoc] using hd
  exact append_cons_eq_left hd2 hs hsB

/-- No monitored service name contains an underscore. -/
theorem monitored_no_underscore : ∀ s ∈ MONITORED_SERVICES, '_' ∉ s.data := by decide

/-- The monitored-service registry has no duplicates. -/
theorem monitored_nodup : MONITORED_SERVICES.Nodup := by decide

/-- Splitting the registry at a member: the part before and after never repeat
the member, and stay inside the registry. -/
theorem registry_split (service : String) (hs : service ∈ MONITORED_SERVICES) :
    ∃ L1 L2, MONITORED_SERVICES = L1 ++ service :: L2 ∧
      service ∉ L1 ∧ service ∉ L2 ∧
      (∀ s ∈ L1, s ∈ MONITORED_SERVICES) ∧ (∀ s ∈ L2, s ∈ MONITORED_SERVICES) := by
  obtain ⟨L1, L2, hL⟩ := List.append_of_mem hs
  have hnd : (L1 ++ service :: L2).Nodup := hL ▸ monitored_nodup
  have hnd2 := List.nodup_append.mp hnd
  refine ⟨L1, L2, hL, ?_, ?_, ?_, ?_⟩
  · intro hmem
    exact hnd2.2.2 hmem (List.mem_cons_self service L2)
  · exact (List.nodup_cons.mp hnd2.2.1).1
  · intro s hmem
    rw [hL]
    exact List.mem_append_left _ hmem
  · intro s hmem
    rw [hL]
    exact List.mem_append_right _ (List.mem_cons_of_mem _ hmem)

/-- The detector loop over an appended list decomposes into the two runs, the
second starting from the buffer left by the first. -/
theorem detectGo_append (threshold : Int) (cur prev : Snapshot) (now : Int)
    (tstr : String) (L1 L2 : List String) (b : Buffer) :
    detectGo threshold cur prev now tstr (L1 ++ L2) b =
      ((detectGo threshold cur prev now tstr L1 b).1 ++
        (detectGo threshold cur prev now tstr L2
          (detectGo threshold cur prev now tstr L1 b).2).1,
       (detectGo threshold cur prev now tstr L2
         (detectGo threshold cur prev now tstr L1 b).2).2) := by
  induction L1 generalizing b with
  | nil => simp [detectGo]
  | cons s rest ih =>
    simp only [List.cons_append, detectGo, List.append_eq, ih, List.append_assoc]

/-- Any notification emitted by the per-service step carries that service's
name. -/
theorem detectStep_service_name (threshold : Int) (cur prev : Snapshot)
    (now : Int) (tstr : String) (s : String) (b : Buffer)
    (n : EnhancedSlackNotification)
    (h : (detectStep threshold cur prev now tstr s b).1 = some n) :
    n.service = s := by
  unfold detectStep at h
  cases hc : cur.details s with
  | none => rw [hc] at h; simp at h
  | some raw =>
    rw [hc] at h
    dsimp only at h
    rcases hb : b (s ++ "_" ++ normalize_status raw) with _ | e <;> rw [hb] at h <;>
      dsimp only at h <;> split_ifs at h <;>
      simp only [Option.some.injEq] at h <;> rw [← h] <;> rfl

/-- Notifications produced by a detector run over a service list name services
from that list. -/
theorem detectGo_service_mem (threshold : Int) (cur prev : Snapshot) (now : Int)
    (tstr : String) (L : List String) (b : Buffer)
    (n : EnhancedSlackNotification)
    (hn : n ∈ (detectGo threshold cur prev now tstr L b).1) : n.service ∈ L := by
  induction L generalizing b with
  | nil => simp [detectGo] at hn
  | cons s rest ih =>
    rw [detectGo] at hn
    rcases List.mem_append.mp hn with h1 | h2
    · cases ho : (detectStep threshold cur prev now tstr s b).1 with
      | none => rw [ho] at h1; simp at h1
      | some m =>
        rw [ho] at h1
        simp only [Option.toList_some, List.mem_singleton] at h1
        rw [h1]
        exact detectStep_service_name _ _ _ _ _ _ _ _ ho ▸ List.mem_cons_self s rest
    · exact List.mem_cons_of_mem _ (ih _ h2)

/-- The per-service step changes the buffer only at keys prefixed by the
service's own name. -/
theorem detectStep_frame (threshold : Int) (cur prev : Snapshot) (now : Int)
    (tstr : String) (s : String) (b : Buffer) (k : String)
    (hk : ∀ z : String, k ≠ s ++ "_" ++ z) :
    (detectStep threshold cur prev now tstr s b).2 k = b k := by
  unfold detectStep
  cases hc : cur.details s with
  | none => rfl
  | some raw =>
    dsimp only
    rcases hb : b (s ++ "_" ++ normalize_status raw) with _ | e <;> dsimp only <;>
      split_ifs <;>
      simp [bufSet, bufPop, hk (normalize_status raw)]

/-- The detector run changes the buffer only at keys belonging to services of
the traversed list. -/
theorem detectGo_frame (threshold : Int) (cur prev : Snapshot) (now : Int)
    (tstr : String) (L : List String) (b : Buffer) (k : String)
    (hk : ∀ s ∈ L, ∀ z : String, k ≠ s ++ "_" ++ z) :
    (detectGo threshold cur prev now tstr L b).2 k = b k := by
  induction L generalizing b with
  | nil => rfl
  | cons s rest ih =>
    rw [detectGo]
    dsimp only
    rw [ih _ (fun s' hs' => hk s' (List.mem_cons_of_mem _ hs'))]
    exact detectStep_frame _ _ _ _ _ _ _ _ (hk s (List.mem_cons_self s rest))

/-- A detector run over a list avoiding a service emits no notification named
for that service. -/
theorem detectGo_not_in_list (threshold : Int) (cur prev : Snapshot) (now : Int)
    (tstr : String) (L : List String) (b : Buffer) (service : String)
    (hs : service ∉ L) :
    ∀ n ∈ (detectGo threshold cur prev now tstr L b).1, n.service ≠ service := by
  intro n hn hEq
  exact hs (hEq ▸ detectGo_service_mem threshold cur prev now tstr L b n hn)

/-- Empty pending-confirmation buffer. -/
def emptyBuffer : Buffer := fun _ => none

/-- Empty snapshot: no details, no component trees. -/
def emptySnapshot : Snapshot := ⟨fun _ => none, fun _ => none⟩

/-- Snapshot carrying only `github: operational`. -/
def operationalSnap : Snapshot :=
  ⟨fun s => if s = "github" then some "operational" else none, fun _ => none⟩

/-- Snapshot carrying only `github: major_outage`. -/
def outageSnap : Snapshot :=
  ⟨fun s => if s = "github" then some "major_outage" else none, fun _ => none⟩

/-- Snapshot carrying only `github: maintenance`. -/
def maintenanceSnap : Snapshot :=
  ⟨fun s => if s = "github" then some "maintenance" else none, fun _ => none⟩

/-- On a transition into `major_outage` from a differently-normalized previous
status, the per-service step emits immediately and returns the buffer
untouched, whatever the buffer and threshold are. -/
theorem detectStep_immediate_outage (threshold : Int) (cur prev : Snapshot)
    (now : Int) (tstr : String) (service raw : String) (b : Buffer)
    (hc : cur.details service = some raw)
    (hm : normalize_status raw = "major_outage")
    (hp : normalize_status ((prev.details service).getD "unknown") ≠ "major_outage") :
    detectStep threshold cur prev now tstr service b =
      (some (buildNotification cur service ((prev.details service).getD "unknown") raw
        (normalize_status raw) now tstr), b) := by
  unfold detectStep
  rw [hc]
  dsimp only
  have hskip1 : ¬(normalize_status raw =
      normalize_status ((prev.details service).getD "unknown") ∧
      normalize_status ((prev.details service).getD "unknown") ≠ "unknown") := by
    rintro ⟨h1, _⟩
    exact hp (h1.symm.trans hm)
  have hskip2 : ¬(normalize_status ((prev.details service).getD "unknown") = "unknown" ∧
      normalize_status raw = "operational") := by
    rintro ⟨_, h2⟩
    rw [hm] at h2
    exact absurd h2 (by decide)
  have hcrit : normalize_status raw ∈ (["major_outage", "degraded"] : List String) ∨
      (normalize_status raw = "operational" ∧
        normalize_status ((prev.details service).getD "unknown") ∈
          (["major_outage", "degraded"] : List String)) := by
    left
    rw [hm]
    decide
  rw [if_neg hskip1, if_neg hskip2, if_pos hcrit]

/-- If the per-service step of one service emits a fixed notification and
returns its buffer unchanged whatever the buffer is, then a detector run over
any list containing that service emits that notification. -/
theorem detectGo_emits_of_step_const (threshold : Int) (cur prev : Snapshot)
    (now : Int) (tstr : String) (L : List String) (service : String)
    (n : EnhancedSlackNotification)
    (hstep : ∀ b : Buffer, detectStep threshold cur prev now tstr service b = (some n, b))
    (hs : service ∈ L) (b : Buffer) :
    n ∈ (detectGo threshold cur prev now tstr L b).1 := by
  induction L generalizing b with
  | nil => cases hs
  | cons s rest ih =>
    rw [detectGo]
    rcases List.mem_cons.mp hs with rfl | hmem
    · rw [hstep b]
      simp
    · exact List.mem_append_right _ (ih hmem _)

/-- C1: whenever a monitored service's current status normalizes to
`major_outage` and its previous one normalized differently, the detector emits
a notification for it in that very cycle with severity `critical` and the
priority-table priority, for every threshold; and the per-service step neither
reads nor writes the pending-confirmation buffer on this path. -/
theorem c1_immediate_major_outage_bypass (threshold : Int) (cur prev : Snapshot)
    (b : Buffer) (now : Int) (tstr : String) (service raw : String)
    (hs : service ∈ MONITORED_SERVICES)
    (hc : cur.details service = some raw)
    (hm : normalize_status raw = "major_outage")
    (hp : normalize_status ((prev.details service).getD "unknown") ≠ "major_outage") :
    (∃ n ∈ (detect_enhanced_status_changes threshold cur prev b now tstr).1,
        n.service = service ∧ n.severity = "critical" ∧
        n.priority = (List.lookup service SERVICE_PRIORITIES).getD "medium") ∧
    ∀ b' : Buffer, detectStep threshold cur prev now tstr service b' =
      (some (buildNotification cur service ((prev.details service).getD "unknown") raw
        (normalize_status raw) now tstr), b') := by
  have hstep : ∀ b' : Buffer, detectStep threshold cur prev now tstr service b' =
      (some (buildNotification cur service ((prev.details service).getD "unknown") raw
        (normalize_status raw) now tstr), b') :=
    fun b' => detectStep_immediate_outage threshold cur prev now tstr service raw b' hc hm hp
  refine ⟨⟨buildNotification cur service ((prev.details service).getD "unknown") raw
      (normalize_status raw) now tstr,
    detectGo_emits_of_step_const threshold cur prev now tstr MONITORED_SERVICES service _
      hstep hs b, rfl, ?_, rfl⟩, hstep⟩
  simp [buildNotification, hm]

/-- C1 witness: `github` going from `operational` to `major_outage` is emitted
immediately with severity `critical` and priority `high`. -/
theorem c1_immediate_major_outage_bypass_witness :
    ("github" ∈ MONITORED_SERVICES ∧
     outageSnap.details "github" = some "major_outage" ∧
     normalize_status "major_outage" = "major_outage" ∧
     normalize_status ((operationalSnap.details "github").getD "unknown") ≠ "major_outage") ∧
    ((∃ n ∈ (detect_enhanced_status_changes 3 outageSnap operationalSnap emptyBuffer 0 "t").1,
        n.service = "github" ∧ n.severity = "critical" ∧
        n.priority = (List.lookup "github" SERVICE_PRIORITIES).getD "medium") ∧
     ∀ b' : Buffer, detectStep 3 outageSnap operationalSnap 0 "t" "github" b' =
       (some (buildNotification outageSnap "github"
         ((operationalSnap.details "github").getD "unknown") "major_outage"
         (normalize_status "major_outage") 0 "t"), b')) :=
  ⟨⟨by decide, by decide, by decide, by decide⟩,
   c1_immediate_major_outage_bypass 3 outageSnap operationalSnap emptyBuffer 0 "t" "github"
     "major_outage" (by decide) (by decide) (by decide) (by decide)⟩

/-- When the previous status normalizes to `unknown` and the current one to
`operational`, the per-service step skips: no emission, buffer untouched. -/
theorem detectStep_baseline_skip (threshold : Int) (cur prev : Snapshot)
    (now : Int) (tstr : String) (service : String) (b : Buffer)
    (hprevU : normalize_status ((prev.details service).getD "unknown") = "unknown")
    (hcurOp : ∀ raw, cur.details service = some raw → normalize_status raw = "operational") :
    detectStep threshold cur prev now tstr service b = (none, b) := by
  unfold detectStep
  cases hc : cur.details service with
  | none => rfl
  | some raw =>
    dsimp only
    have hop := hcurOp raw hc
    have hskip1 : ¬(normalize_status raw =
        normalize_status ((prev.details service).getD "unknown") ∧
        normalize_status ((prev.details service).getD "unknown") ≠ "unknown") := by
      rintro ⟨_, h2⟩
      exact h2 hprevU
    rw [if_neg hskip1, if_pos ⟨hprevU, hop⟩]

/-- If one service's step never emits whatever the buffer is, no detector run
over any list emits a notification named for it. -/
theorem detectGo_none_not_emitted (threshold : Int) (cur prev : Snapshot) (now : Int)
    (tstr : String) (L : List String) (service : String)
    (hnone : ∀ b : Buffer, (detectStep threshold cur prev now tstr service b).1 = none) :
    ∀ b : Buffer, ∀ n ∈ (detectGo threshold cur prev now tstr L b).1,
      n.service ≠ service := by
  induction L with
  | nil => intro b n hn; simp [detectGo] at hn
  | cons s rest ih =>
    intro b n hn
    rw [detectGo] at hn
    rcases List.mem_append.mp hn with h1 | h2
    · by_cases hss : s = service
      · subst hss
        rw [hnone b] at h1
        simp at h1
      · cases ho : (detectStep threshold cur prev now tstr s b).1 with
        | none => rw [ho] at h1; simp at h1
        | some m =>
          rw [ho] at h1
          simp only [Option.toList_some, List.mem_singleton] at h1
          rw [h1, detectStep_service_name threshold cur prev now tstr s b m ho]
          exact hss
    · exact ih _ n h2

/-- C9: a service whose previous status normalizes to `unknown` (including the
absent case) and whose current status normalizes to `operational` produces no
notification; and on the concrete first-baseline scenario (`previous = {}`,
`current.details = {github: operational}`) the detector returns the empty list
and leaves the buffer untouched. -/
theorem c9_initial_baseline_skip (threshold : Int) (cur prev : Snapshot)
    (b : Buffer) (now : Int) (tstr : String) (service : String)
    (hprevU : normalize_status ((prev.details service).getD "unknown") = "unknown")
    (hcurOp : ∀ raw, cur.details service = some raw → normalize_status raw = "operational") :
    (∀ n ∈ (detect_enhanced_status_changes threshold cur prev b now tstr).1,
      n.service ≠ service) ∧
    detect_enhanced_status_changes threshold operationalSnap emptySnapshot b now tstr =
      ([], b) := by
  refine ⟨detectGo_none_not_emitted threshold cur prev now tstr MONITORED_SERVICES service
    (fun b' => by
      rw [detectStep_baseline_skip threshold cur prev now tstr service b' hprevU hcurOp]) b, ?_⟩
  rfl

/-- C9 witness: the baseline-skip theorem applied to the spec's concrete
scenario. -/
theorem c9_initial_baseline_skip_witness :
    normalize_status ((emptySnapshot.details "github").getD "unknown") = "unknown" ∧
    ((∀ n ∈ (detect_enhanced_status_changes 3 operationalSnap emptySnapshot emptyBuffer 0 "t").1,
        n.service ≠ "github") ∧
     detect_enhanced_status_changes 3 operationalSnap emptySnapshot emptyBuffer 0 "t" =
       ([], emptyBuffer)) :=
  ⟨by decide,
   c9_initial_baseline_skip 3 operationalSnap emptySnapshot emptyBuffer 0 "t" "github"
     (by decide)
     (fun raw h => by
       simp [operationalSnap] at h
       subst h
       decide)⟩

/-- On a non-critical candidate transition (current normalizes to `target`,
which is none of `operational`/`degraded`/`major_outage`, and the skip rules do
not fire), the per-service step reduces to the pending-confirmation buffer
branch of the source. -/
theorem detectStep_buffered_eq (threshold : Int) (cur prev : Snapshot)
    (now : Int) (tstr : String) (service raw target : String) (b : Buffer)
    (hc : cur.details service = some raw)
    (ht : normalize_status raw = target)
    (hop : target ≠ "operational") (hdeg : target ≠ "degraded")
    (hmaj : target ≠ "major_outage")
    (hskip : target ≠ normalize_status ((prev.details service).getD "unknown") ∨
      normalize_status ((prev.details service).getD "unknown") = "unknown") :
    detectStep threshold cur prev now tstr service b =
      (match b (service ++ "_" ++ target) with
       | none =>
         if 1 < threshold then
           (none, bufSet b (service ++ "_" ++ target)
             ⟨1, now, (prev.details service).getD "unknown", raw, target,
              normalize_status ((prev.details service).getD "unknown")⟩)
         else if (1 : Int) < threshold then
           (none, bufSet b (service ++ "_" ++ target)
             ⟨1, now, (prev.details service).getD "unknown", raw, target,
              normalize_status ((prev.details service).getD "unknown")⟩)
         else
           (some (buildNotification cur service ((prev.details service).getD "unknown") raw
             target now tstr),
            bufPop (bufSet b (service ++ "_" ++ target)
              ⟨1, now, (prev.details service).getD "unknown", raw, target,
               normalize_status ((prev.details service).getD "unknown")⟩)
              (service ++ "_" ++ target))
       | some e =>
         if ((e.count : Int) + 1 : Int) < threshold then
           (none, bufSet b (service ++ "_" ++ target) { e with count := e.count + 1 })
         else
           (some (buildNotification cur service ((prev.details service).getD "unknown") raw
             target now tstr),
            bufPop (bufSet b (service ++ "_" ++ target) { e with count := e.count + 1 })
              (service ++ "_" ++ target))) := by
  unfold detectStep
  rw [hc]
  dsimp only
  rw [ht]
  have hskip1 : ¬(target = normalize_status ((prev.details service).getD "unknown") ∧
      normalize_status ((prev.details service).getD "unknown") ≠ "unknown") := by
    rintro ⟨h1, h2⟩
    rcases hskip with hne | hu
    · exact hne h1
    · exact h2 hu
  have hskip2 : ¬(normalize_status ((prev.details service).getD "unknown") = "unknown" ∧
      target = "operational") := fun h => hop h.2
  have hncrit : ¬(target ∈ (["major_outage", "degraded"] : List String) ∨
      (target = "operational" ∧ normalize_status ((prev.details service).getD "unknown") ∈
        (["major_outage", "degraded"] : List String))) := by
    rintro (hmem | ⟨hopr, _⟩)
    · rcases List.mem_cons.mp hmem with h | h
      · exact hmaj h
      · rcases List.mem_cons.mp h with h2 | h2
        · exact hdeg h2
        · simp at h2
    · exact hop hopr
  rw [if_neg hskip1, if_neg hskip2, if_neg hncrit]

/-- Non-critical candidate, key absent, threshold above 1: the step creates the
pending entry with count 1 and emits nothing. -/
theorem detectStep_buffered_absent (threshold : Int) (cur prev : Snapshot)
    (now : Int) (tstr : String) (service raw target : String) (b : Buffer)
    (hc : cur.details service = some raw)
    (ht : normalize_status raw = target)
    (hop : target ≠ "operational") (hdeg : target ≠ "degraded")
    (hmaj : target ≠ "major_outage")
    (hskip : target ≠ normalize_status ((prev.details service).getD "unknown") ∨
      normalize_status ((prev.details service).getD "unknown") = "unknown")
    (hb : b (service ++ "_" ++ target) = none)
    (hth : (1 : Int) < threshold) :
    detectStep threshold cur prev now tstr service b =
      (none, bufSet b (service ++ "_" ++ target)
        ⟨1, now, (prev.details service).getD "unknown", raw, target,
         normalize_status ((prev.details service).getD "unknown")⟩) := by
  rw [detectStep_buffered_eq threshold cur prev now tstr service raw target b
    hc ht hop hdeg hmaj hskip, hb]
  dsimp only
  rw [if_pos hth]

/-- Non-critical candidate, key present, incremented count still below the
threshold: the step increments the entry and emits nothing. -/
theorem detectStep_buffered_below (threshold : Int) (cur prev : Snapshot)
    (now : Int) (tstr : String) (service raw target : String) (b : Buffer)
    (e : BufferEntry)
    (hc : cur.details service = some raw)
    (ht : normalize_status raw = target)
    (hop : target ≠ "operational") (hdeg : target ≠ "degraded")
    (hmaj : target ≠ "major_outage")
    (hskip : target ≠ normalize_status ((prev.details service).getD "unknown") ∨
      normalize_status ((prev.details service).getD "unknown") = "unknown")
    (hb : b (service ++ "_" ++ target) = some e)
    (hlt : ((e.count : Int) + 1 : Int) < threshold) :
    detectStep threshold cur prev now tstr service b =
      (none, bufSet b (service ++ "_" ++ target) { e with count := e.count + 1 }) := by
  rw [detectStep_buffered_eq threshold cur prev now tstr service raw target b
    hc ht hop hdeg hmaj hskip, hb]
  dsimp only
  rw [if_pos hlt]

/-- Non-critical candidate, key present, incremented count reaching the
threshold: the step emits the notification and removes the pending entry. -/
theorem detectStep_buffered_reach (threshold : Int) (cur prev : Snapshot)
    (now : Int) (tstr : String) (service raw target : String) (b : Buffer)
    (e : BufferEntry)
    (hc : cur.details service = some raw)
    (ht : normalize_status raw = target)
    (hop : target ≠ "operational") (hdeg : target ≠ "degraded")
    (hmaj : target ≠ "major_outage")
    (hskip : target ≠ normalize_status ((prev.details service).getD "unknown") ∨
      normalize_status ((prev.details service).getD "unknown") = "unknown")
    (hb : b (service ++ "_" ++ target) = some e)
    (hge : ¬(((e.count : Int) + 1 : Int) < threshold)) :
    detectStep threshold cur prev now tstr service b =
      (some (buildNotification cur service ((prev.details service).getD "unknown") raw
        target now tstr),
       bufPop (bufSet b (service ++ "_" ++ target) { e with count := e.count + 1 })
         (service ++ "_" ++ target)) := by
  rw [detectStep_buffered_eq threshold cur prev now tstr service raw target b
    hc ht hop hdeg hmaj hskip, hb]
  dsimp only
  rw [if_neg hge]

/-- Decomposition of one full detector call around a monitored service: the
output splits into the part before, the service's own step at some
intermediate buffer, and the part after; the intermediate buffer agrees with
the input on the service's own key, and the final buffer agrees there with the
step's output. -/
theorem detect_decompose (threshold : Int) (cur prev : Snapshot) (now : Int)
    (tstr : String) (service target : String) (b : Buffer)
    (hs : service ∈ MONITORED_SERVICES) :
    ∃ L1 L2 bmid,
      service ∉ L1 ∧ service ∉ L2 ∧
      bmid (service ++ "_" ++ target) = b (service ++ "_" ++ target) ∧
      (detect_enhanced_status_changes threshold cur prev b now tstr).1 =
        (detectGo threshold cur prev now tstr L1 b).1 ++
        ((detectStep threshold cur prev now tstr service bmid).1.toList ++
         (detectGo threshold cur prev now tstr L2
           (detectStep threshold cur prev now tstr service bmid).2).1) ∧
      (detect_enhanced_status_changes threshold cur prev b now tstr).2
          (service ++ "_" ++ target) =
        (detectStep threshold cur prev now tstr service bmid).2
          (service ++ "_" ++ target) := by
  obtain ⟨L1, L2, hL, hn1, hn2, hm1, hm2⟩ := registry_split service hs
  have hkey1 : ∀ s' ∈ L1, ∀ z : String, (service ++ "_" ++ target) ≠ s' ++ "_" ++ z := by
    intro s' hs' z
    exact buffer_key_ne service s' (monitored_no_underscore _ hs)
      (monitored_no_underscore _ (hm1 _ hs'))
      (fun hEq => hn1 (by rw [hEq]; exact hs')) target z
  have hkey2 : ∀ s' ∈ L2, ∀ z : String, (service ++ "_" ++ target) ≠ s' ++ "_" ++ z := by
    intro s' hs' z
    exact buffer_key_ne service s' (monitored_no_underscore _ hs)
      (monitored_no_underscore _ (hm2 _ hs'))
      (fun hEq => hn2 (by rw [hEq]; exact hs')) target z
  refine ⟨L1, L2, (detectGo threshold cur prev now tstr L1 b).2, hn1, hn2,
    detectGo_frame threshold cur prev now tstr L1 b _ hkey1, ?_, ?_⟩
  · show (detectGo threshold cur prev now tstr MONITORED_SERVICES b).1 = _
    rw [hL, detectGo_append]
    dsimp only
    rw [detectGo]
  · show (detectGo threshold cur prev now tstr MONITORED_SERVICES b).2 _ = _
    rw [hL, detectGo_append]
    dsimp only
    rw [detectGo]
    dsimp only
    exact detectGo_frame threshold cur prev now tstr L2 _ _ hkey2

/-- C2: with confirmation threshold 3, a non-critical candidate transition
observed in three consecutive detector calls is not emitted on the first two
calls — the pending entry is created with count 1 and then incremented — and
is emitted on the third, with the pending entry removed from the buffer. -/
theorem c2_debounce_three_cycles (cur prev : Snapshot) (b0 : Buffer)
    (n1 n2 n3 : Int) (t1 t2 t3 : String) (service raw target : String)
    (hs : service ∈ MONITORED_SERVICES)
    (hc : cur.details service = some raw)
    (ht : normalize_status raw = target)
    (hop : target ≠ "operational") (hdeg : target ≠ "degraded")
    (hmaj : target ≠ "major_outage")
    (hskip : target ≠ normalize_status ((prev.details service).getD "unknown") ∨
      normalize_status ((prev.details service).getD "unknown") = "unknown")
    (hb0 : b0 (service ++ "_" ++ target) = none) :
    (∀ n ∈ (detect_enhanced_status_changes 3 cur prev b0 n1 t1).1, n.service ≠ service) ∧
    ((detect_enhanced_status_changes 3 cur prev b0 n1 t1).2
        (service ++ "_" ++ target)).map BufferEntry.count = some 1 ∧
    (∀ n ∈ (detect_enhanced_status_changes 3 cur prev
        (detect_enhanced_status_changes 3 cur prev b0 n1 t1).2 n2 t2).1,
      n.service ≠ service) ∧
    ((detect_enhanced_status_changes 3 cur prev
        (detect_enhanced_status_changes 3 cur prev b0 n1 t1).2 n2 t2).2
        (service ++ "_" ++ target)).map BufferEntry.count = some 2 ∧
    (∃ n ∈ (detect_enhanced_status_changes 3 cur prev
        (detect_enhanced_status_changes 3 cur prev
          (detect_enhanced_status_changes 3 cur prev b0 n1 t1).2 n2 t2).2 n3 t3).1,
      n.service = service) ∧
    (detect_enhanced_status_changes 3 cur prev
        (detect_enhanced_status_changes 3 cur prev
          (detect_enhanced_status_changes 3 cur prev b0 n1 t1).2 n2 t2).2 n3 t3).2
        (service ++ "_" ++ target) = none := by
  obtain ⟨L1a, L2a, bm1, hA1, hA2, hAkey, hAout, hAbuf⟩ :=
    detect_decompose 3 cur prev n1 t1 service target b0 hs
  have hstep1 := detectStep_buffered_absent 3 cur prev n1 t1 service raw target bm1
    hc ht hop hdeg hmaj hskip (hAkey.trans hb0) (by decide)
  have hout1 : ∀ n ∈ (detect_enhanced_status_changes 3 cur prev b0 n1 t1).1,
      n.service ≠ service := by
    rw [hAout]
    intro n hn
    rcases List.mem_append.mp hn with h | h
    · exact detectGo_not_in_list 3 cur prev n1 t1 L1a b0 service hA1 n h
    · rcases List.mem_append.mp h with h2 | h2
      · rw [hstep1] at h2
        simp at h2
      · exact detectGo_not_in_list 3 cur prev n1 t1 L2a _ service hA2 n h2
  have hbuf1 : (detect_enhanced_status_changes 3 cur prev b0 n1 t1).2
      (service ++ "_" ++ target) =
      some ⟨1, n1, (prev.details service).getD "unknown", raw, target,
        normalize_status ((prev.details service).getD "unknown")⟩ := by
    rw [hAbuf, hstep1]
    simp [bufSet]
  obtain ⟨L1b, L2b, bm2, hB1, hB2, hBkey, hBout, hBbuf⟩ :=
    detect_decompose 3 cur prev n2 t2 service target
      (detect_enhanced_status_changes 3 cur prev b0 n1 t1).2 hs
  have hstep2 := detectStep_buffered_below 3 cur prev n2 t2 service raw target bm2
    ⟨1, n1, (prev.details service).getD "unknown", raw, target,
      normalize_status ((prev.details service).getD "unknown")⟩
    hc ht hop hdeg hmaj hskip (hBkey.trans hbuf1)
    (show (((1 : Nat) : Int) + 1 : Int) < 3 by norm_num)
  have hout2 : ∀ n ∈ (detect_enhanced_status_changes 3 cur prev
      (detect_enhanced_status_changes 3 cur prev b0 n1 t1).2 n2 t2).1,
      n.service ≠ service := by
    rw [hBout]
    intro n hn
    rcases List.mem_append.mp hn with h | h
    · exact detectGo_not_in_list 3 cur prev n2 t2 L1b _ service hB1 n h
    · rcases List.mem_append.mp h with h2 | h2
      · rw [hstep2] at h2
        simp at h2
      · exact detectGo_not_in_list 3 cur prev n2 t2 L2b _ service hB2 n h2
  have hbuf2 : (detect_enhanced_status_changes 3 cur prev
      (detect_enhanced_status_changes 3 cur prev b0 n1 t1).2 n2 t2).2
      (service ++ "_" ++ target) =
      some ⟨2, n1, (prev.details service).getD "unknown", raw, target,
        normalize_status ((prev.details service).getD "unknown")⟩ := by
    rw [hBbuf, hstep2]
    simp [bufSet]
  obtain ⟨L1c, L2c, bm3, hC1, hC2, hCkey, hCout, hCbuf⟩ :=
    detect_decompose 3 cur prev n3 t3 service target
      (detect_enhanced_status_changes 3 cur prev
        (detect_enhanced_status_changes 3 cur prev b0 n1 t1).2 n2 t2).2 hs
  have hstep3 := detectStep_buffered_reach 3 cur prev n3 t3 service raw target bm3
    ⟨2, n1, (prev.details service).getD "unknown", raw, target,
      normalize_status ((prev.details service).getD "unknown")⟩
    hc ht hop hdeg hmaj hskip (hCkey.trans hbuf2)
    (show ¬((((2 : Nat) : Int) + 1 : Int) < 3) by norm_num)
  have hout3 : ∃ n ∈ (detect_enhanced_status_changes 3 cur prev
      (detect_enhanced_status_changes 3 cur prev
        (detect_enhanced_status_changes 3 cur prev b0 n1 t1).2 n2 t2).2 n3 t3).1,
      n.service = service := by
    rw [hCout]
    refine ⟨buildNotification cur service ((prev.details service).getD "unknown") raw
      target n3 t3, ?_, rfl⟩
    apply List.mem_append_right
    apply List.mem_append_left
    rw [hstep3]
    simp
  have hbuf3 : (detect_enhanced_status_changes 3 cur prev
      (detect_enhanced_status_changes 3 cur prev
        (detect_enhanced_status_changes 3 cur prev b0 n1 t1).2 n2 t2).2 n3 t3).2
      (service ++ "_" ++ target) = none := by
    rw [hCbuf, hstep3]
    simp [bufPop]
  exact ⟨hout1, by rw [hbuf1]; rfl, hout2, by rw [hbuf2]; rfl, hout3, hbuf3⟩

/-- C2 witness: `github` moving from `operational` to `maintenance` with
threshold 3, starting from the empty buffer. -/
theorem c2_debounce_three_cycles_witness :
    ("github" ∈ MONITORED_SERVICES ∧
     maintenanceSnap.details "github" = some "maintenance" ∧
     normalize_status "maintenance" = "maintenance" ∧
     emptyBuffer ("github" ++ "_" ++ "maintenance") = none) ∧
    ((∀ n ∈ (detect_enhanced_status_changes 3 maintenanceSnap operationalSnap
        emptyBuffer 0 "t").1, n.service ≠ "github") ∧
     ((detect_enhanced_status_changes 3 maintenanceSnap operationalSnap
        emptyBuffer 0 "t").2 ("github" ++ "_" ++ "maintenance")).map
          BufferEntry.count = some 1 ∧
     (∀ n ∈ (detect_enhanced_status_changes 3 maintenanceSnap operationalSnap
        (detect_enhanced_status_changes 3 maintenanceSnap operationalSnap
          emptyBuffer 0 "t").2 1 "t").1, n.service ≠ "github") ∧
     ((detect_enhanced_status_changes 3 maintenanceSnap operationalSnap
        (detect_enhanced_status_changes 3 maintenanceSnap operationalSnap
          emptyBuffer 0 "t").2 1 "t").2 ("github" ++ "_" ++ "maintenance")).map
          BufferEntry.count = some 2 ∧
     (∃ n ∈ (detect_enhanced_status_changes 3 maintenanceSnap operationalSnap
        (detect_enhanced_status_changes 3 maintenanceSnap operationalSnap
          (detect_enhanced_status_changes 3 maintenanceSnap operationalSnap
            emptyBuffer 0 "t").2 1 "t").2 2 "t").1, n.service = "github") ∧
     (detect_enhanced_status_changes 3 maintenanceSnap operationalSnap
        (detect_enhanced_status_changes 3 maintenanceSnap operationalSnap
          (detect_enhanced_status_changes 3 maintenanceSnap operationalSnap
            emptyBuffer 0 "t").2 1 "t").2 2 "t").2 ("github" ++ "_" ++ "maintenance") =
       none) :=
  ⟨⟨by decide, by decide, by decide, by decide⟩,
   c2_debounce_three_cycles maintenanceSnap operationalSnap emptyBuffer 0 1 2 "t" "t" "t"
     "github" "maintenance" "maintenance" (by decide) (by decide) (by decide) (by decide)
     (by decide) (by decide) (by decide) (by decide)⟩

/-- A pending-confirmation buffer holding one `github`/`maintenance` entry
of count 1. -/
def c4PendingBuffer : Buffer :=
  fun k => if k = "github_maintenance" then
    some ⟨1, 0, "operational", "maintenance", "maintenance", "operational"⟩ else none

/-- C4 counterexample: with `confirmation_threshold = 1` and a pending entry
already past the threshold, the first detector call emits and consumes the
entry, yet the second call with the same snapshots emits a duplicate for the
same service — so the claim fails for that threshold value. -/
theorem c4_threshold_one_counterexample :
    (∃ n ∈ (detect_enhanced_status_changes 1 maintenanceSnap operationalSnap
        c4PendingBuffer 0 "t").1, n.service = "github") ∧
    (detect_enhanced_status_changes 1 maintenanceSnap operationalSnap
        c4PendingBuffer 0 "t").2 "github_maintenance" = none ∧
    (∃ n ∈ (detect_enhanced_status_changes 1 maintenanceSnap operationalSnap
        (detect_enhanced_status_changes 1 maintenanceSnap operationalSnap
          c4PendingBuffer 0 "t").2 0 "t").1, n.service = "github") := by decide

/-- C4 amended: for every confirmation threshold of at least 2, if the pending
set has advanced far enough that the first call emits and consumes the entry,
a second call with the same snapshot pair emits no duplicate for that
service. -/
theorem c4_no_duplicate_amended (threshold : Int) (cur prev : Snapshot)
    (b0 : Buffer) (n1 n2 : Int) (t1 t2 : String)
    (service raw target : String) (e : BufferEntry)
    (hth : 2 ≤ threshold)
    (hs : service ∈ MONITORED_SERVICES)
    (hc : cur.details service = some raw)
    (ht : normalize_status raw = target)
    (hop : target ≠ "operational") (hdeg : target ≠ "degraded")
    (hmaj : target ≠ "major_outage")
    (hskip : target ≠ normalize_status ((prev.details service).getD "unknown") ∨
      normalize_status ((prev.details service).getD "unknown") = "unknown")
    (hb0 : b0 (service ++ "_" ++ target) = some e)
    (hadv : threshold ≤ (e.count : Int) + 1) :
    (∃ n ∈ (detect_enhanced_status_changes threshold cur prev b0 n1 t1).1,
      n.service = service) ∧
    (detect_enhanced_status_changes threshold cur prev b0 n1 t1).2
        (service ++ "_" ++ target) = none ∧
    (∀ n ∈ (detect_enhanced_status_changes threshold cur prev
        (detect_enhanced_status_changes threshold cur prev b0 n1 t1).2 n2 t2).1,
      n.service ≠ service) := by
  obtain ⟨L1a, L2a, bm1, hA1, hA2, hAkey, hAout, hAbuf⟩ :=
    detect_decompose threshold cur prev n1 t1 service target b0 hs
  have hstep1 := detectStep_buffered_reach threshold cur prev n1 t1 service raw target bm1
    e hc ht hop hdeg hmaj hskip (hAkey.trans hb0) (not_lt.mpr hadv)
  have hout1 : ∃ n ∈ (detect_enhanced_status_changes threshold cur prev b0 n1 t1).1,
      n.service = service := by
    rw [hAout]
    refine ⟨buildNotification cur service ((prev.details service).getD "unknown") raw
      target n1 t1, ?_, rfl⟩
    apply List.mem_append_right
    apply List.mem_append_left
    rw [hstep1]
    simp
  have hbuf1 : (detect_enhanced_status_changes threshold cur prev b0 n1 t1).2
      (service ++ "_" ++ target) = none := by
    rw [hAbuf, hstep1]
    simp [bufPop]
  obtain ⟨L1b, L2b, bm2, hB1, hB2, hBkey, hBout, hBbuf⟩ :=
    detect_decompose threshold cur prev n2 t2 service target
      (detect_enhanced_status_changes threshold cur prev b0 n1 t1).2 hs
  have hstep2 := detectStep_buffered_absent threshold cur prev n2 t2 service raw target bm2
    hc ht hop hdeg hmaj hskip (hBkey.trans hbuf1)
    (lt_of_lt_of_le one_lt_two hth)
  have hout2 : ∀ n ∈ (detect_enhanced_status_changes threshold cur prev
      (detect_enhanced_status_changes threshold cur prev b0 n1 t1).2 n2 t2).1,
      n.service ≠ service := by
    rw [hBout]
    intro n hn
    rcases List.mem_append.mp hn with h | h
    · exact detectGo_not_in_list threshold cur prev n2 t2 L1b _ service hB1 n h
    · rcases List.mem_append.mp h with h2 | h2
      · rw [hstep2] at h2
        simp at h2
      · exact detectGo_not_in_list threshold cur prev n2 t2 L2b _ service hB2 n h2
  exact ⟨hout1, hbuf1, hout2⟩

/-- C4 witness: threshold 2 with a count-1 pending entry for
`github`/`maintenance`: first call emits and consumes, second call stays
silent for `github`. -/
theorem c4_no_duplicate_amended_witness :
    ((2 : Int) ≤ 2 ∧ "github" ∈ MONITORED_SERVICES ∧
     maintenanceSnap.details "github" = some "maintenance" ∧
     c4PendingBuffer ("github" ++ "_" ++ "maintenance") =
       some ⟨1, 0, "operational", "maintenance", "maintenance", "operational"⟩) ∧
    ((∃ n ∈ (detect_enhanced_status_changes 2 maintenanceSnap operationalSnap
        c4PendingBuffer 0 "t").1, n.service = "github") ∧
     (detect_enhanced_status_changes 2 maintenanceSnap operationalSnap
        c4PendingBuffer 0 "t").2 ("github" ++ "_" ++ "maintenance") = none ∧
     (∀ n ∈ (detect_enhanced_status_changes 2 maintenanceSnap operationalSnap
        (detect_enhanced_status_changes 2 maintenanceSnap operationalSnap
          c4PendingBuffer 0 "t").2 1 "t").1, n.service ≠ "github")) :=
  ⟨⟨by decide, by decide, by decide, by decide⟩,
   c4_no_duplicate_amended 2 maintenanceSnap operationalSnap c4PendingBuffer 0 1 "t" "t"
     "github" "maintenance" "maintenance"
     ⟨1, 0, "operational", "maintenance", "maintenance", "operational"⟩
     (by decide) (by decide) (by decide) (by decide) (by decide) (by decide) (by decide)
     (by decide) (by decide) (by decide)⟩
